import Mathlib

/-!
# miio-api: verification of the protocol core

Shallow embedding of the miIO client library (packet codec, cryptographic
session, retry wrapper, device session state) and proofs of the specified
properties.  Buffers are modelled as `List Nat` of byte values; JavaScript
exceptions are modelled with `Except`; the distinct error classes of the
source (`Error`, `ProtocolError`, `DeviceError`, out-of-range buffer access)
are separate constructors of `JsErr`.
-/

namespace Miio

/-- Structured content of the error messages thrown by the source. -/
inductive ErrMsg where
  /-- "Invalid magic: 0x...." (carries the magic value read). -/
  | invalidMagic (magic : Nat)
  /-- "Invalid packet size, expected ... got ...". -/
  | invalidSize (size actual : Nat)
  /-- "Invalid unknown: 0x...." (carries the flag value read). -/
  | invalidUnknown (unknown : Nat)
  /-- "Invalid packet checksum". -/
  | invalidChecksum
  /-- Node decipher `final()`: ciphertext not a positive whole number of
  blocks ("wrong final block length"). -/
  | wrongFinalBlockLength
  /-- Node decipher `final()`: invalid PKCS#7 padding ("bad decrypt"). -/
  | badDecrypt
  /-- "Empty response". -/
  | emptyResponse
  /-- "Device responded with error: \x7bmessage\x7d. Code: \x7bcode\x7d". -/
  | deviceResponded (code : Int) (message : String)
  deriving Repr, DecidableEq

/-- JavaScript exceptions thrown by the source, separated by error class:
`RangeError` from Node buffer bounds checks, plain `Error`, and the
`ProtocolError` / `DeviceError` / `SocketError` classes of `errors.ts`. -/
inductive JsErr where
  | rangeError
  | plainError (msg : ErrMsg)
  | protocolError (msg : ErrMsg)
  | deviceError (msg : ErrMsg)
  | socketError (msg : String)
  deriving Repr, DecidableEq

/-- True exactly on a `ProtocolError` result. -/
def isProtocolError {α : Type} : Except JsErr α → Bool
  | .error (.protocolError _) => true
  | _ => false

/-- True exactly on a `DeviceError` result. -/
def isDeviceError {α : Type} : Except JsErr α → Bool
  | .error (.deviceError _) => true
  | _ => false

/-- Big-endian bytes of a 16-bit value (Node `writeUInt16BE` byte layout). -/
def u16be (n : Nat) : List Nat := [n / 256 % 256, n % 256]

/-- Big-endian bytes of a 32-bit value (Node `writeUInt32BE` byte layout). -/
def u32be (n : Nat) : List Nat :=
  [n / 16777216 % 256, n / 65536 % 256, n / 256 % 256, n % 256]

/-- Node `buf.readUInt16BE(off)`: bounds-checked big-endian 16-bit read. -/
def readUInt16BE (buf : List Nat) (off : Nat) : Except JsErr Nat :=
  if off + 2 ≤ buf.length then
    .ok (buf.getD off 0 * 256 + buf.getD (off + 1) 0)
  else .error .rangeError

/-- Node `buf.readUInt32BE(off)`: bounds-checked big-endian 32-bit read. -/
def readUInt32BE (buf : List Nat) (off : Nat) : Except JsErr Nat :=
  if off + 4 ≤ buf.length then
    .ok (buf.getD off 0 * 16777216 + buf.getD (off + 1) 0 * 65536 +
         buf.getD (off + 2) 0 * 256 + buf.getD (off + 3) 0)
  else .error .rangeError

/-- Node `src.copy(dst, off, 0)` semantics, as the resulting buffer: the
source bytes overwrite `dst` starting at `off`, truncated at `dst`'s end. -/
def writeBytes (dst : List Nat) (off : Nat) (src : List Nat) : List Nat :=
  dst.take off ++ src.take (dst.length - off) ++ dst.drop (off + src.length)

/-- Node `buf.writeUInt16BE(v, off)`: value and offset are range-checked
(Node throws `ERR_OUT_OF_RANGE` otherwise), then the two bytes are
written big-endian. -/
def writeUInt16BE (buf : List Nat) (v off : Nat) : Except JsErr (List Nat) :=
  if v ≤ 0xffff ∧ off + 2 ≤ buf.length then .ok (writeBytes buf off (u16be v))
  else .error .rangeError

/-- Node `buf.writeUInt32BE(v, off)`: range-checked 32-bit big-endian write. -/
def writeUInt32BE (buf : List Nat) (v off : Nat) : Except JsErr (List Nat) :=
  if v ≤ 0xffffffff ∧ off + 4 ≤ buf.length then .ok (writeBytes buf off (u32be v))
  else .error .rangeError

/-- `Packet` of `packet.ts`: the fields stored on a packet object.  `unknown`
is the 4-byte flag field (all-ones for handshake, zero otherwise). -/
structure Packet where
  unknown : Nat
  deviceId : Nat
  timestamp : Nat
  checksum : List Nat
  data : List Nat
  deriving Repr, DecidableEq

namespace Packet

/-- `Packet.MAGIC`. -/
def MAGIC : Nat := 0x2131

/-- `Packet.HEADER_SIZE`. -/
def HEADER_SIZE : Nat := 32

/-- `Packet.CHECKSUM_SIZE`. -/
def CHECKSUM_SIZE : Nat := 16

/-- `get length()`: header size plus payload size. -/
def length (p : Packet) : Nat := HEADER_SIZE + p.data.length

/-- `Packet.fromBuffer` of `packet.ts`: reads and checks magic (plain
`Error` on mismatch), size (`ProtocolError` on mismatch with actual byte
length), flag (`ProtocolError` unless all-zero or all-ones), then slices
deviceId, timestamp, checksum and payload.  The packet is constructed
through the constructor's default, so its `unknown` field is `0`. -/
def fromBuffer (buf : List Nat) : Except JsErr Packet := do
  let magic ← readUInt16BE buf 0
  if magic ≠ MAGIC then
    throw (.plainError (.invalidMagic magic))
  let size ← readUInt16BE buf 2
  if size ≠ buf.length then
    throw (.protocolError (.invalidSize size buf.length))
  let unknown ← readUInt32BE buf 4
  if unknown ≠ 0 ∧ unknown ≠ 0xffffffff then
    throw (.protocolError (.invalidUnknown unknown))
  let deviceId ← readUInt32BE buf 8
  let timestamp ← readUInt32BE buf 12
  let checksum := (buf.drop 16).take 16
  let data := buf.drop 32
  return { unknown := 0, deviceId, timestamp, checksum, data }

/-- `Packet.toBuffer` of `packet.ts`: allocate a zeroed buffer of the
packet's length, write magic, size, flag, deviceId and timestamp at their
offsets (each write range-checked as in Node), then copy checksum at 16
and payload at 32. -/
def toBuffer (p : Packet) : Except JsErr (List Nat) := do
  let buf := List.replicate p.length 0
  let buf ← writeUInt16BE buf MAGIC 0
  let buf ← writeUInt16BE buf p.length 2
  let buf ← writeUInt32BE buf p.unknown 4
  let buf ← writeUInt32BE buf p.deviceId 8
  let buf ← writeUInt32BE buf p.timestamp 12
  let buf := writeBytes buf 16 p.checksum
  let buf := writeBytes buf 32 p.data
  return buf

end Packet

/-- `Response<ResultType>` of `protocol.ts`: tagged union of a success
carrying `result` and a failure carrying `error \x7b code, message \x7d`. -/
inductive Response (R : Type) where
  | success (id : Nat) (result : R)
  | failure (id : Nat) (code : Int) (message : String)
  deriving Repr, DecidableEq

/-- The `id` field common to both variants of `Response`. -/
def Response.id {R : Type} : Response R → Nat
  | .success i _ => i
  | .failure i _ _ => i

/-- `Request<ParamsType>` of `protocol.ts`: `params` is optional
(`ParamsType` is an array type; its elements are modelled by `P`). -/
structure Request (P : Type) where
  id : Nat
  method : String
  params : Option (List P)

/-- The normalized request object built inside `packRequest`
(`\x7b ...req, params: req.params || [] \x7d`). -/
structure Payload (P : Type) where
  id : Nat
  method : String
  params : List P
  deriving Repr, DecidableEq

/-! ### crypto.ts

`crypto.ts` wraps Node's built-in `crypto` module: `hash(data)` is the
md5 digest of `data`, and `encrypt`/`decrypt` are `aes-128-cbc` via
`createCipheriv`/`createDecipheriv`, with `final()` applying (resp.
checking and stripping) the standard PKCS#7 block padding.  The two
primitives named by those constants — MD5 (RFC 1321) and the AES-128
cipher in CBC mode — are embedded concretely below. -/

/-- 32-bit left rotation. -/
def rotl32 (x n : Nat) : Nat := (x * 2 ^ n + x / 2 ^ (32 - n)) % 4294967296

/-- Little-endian bytes of a 32-bit word. -/
def u32le (w : Nat) : List Nat :=
  [w % 256, w / 256 % 256, w / 65536 % 256, w / 16777216 % 256]

/-- Little-endian bytes of a 64-bit word. -/
def u64le (w : Nat) : List Nat :=
  [w % 256, w / 2 ^ 8 % 256, w / 2 ^ 16 % 256, w / 2 ^ 24 % 256,
   w / 2 ^ 32 % 256, w / 2 ^ 40 % 256, w / 2 ^ 48 % 256, w / 2 ^ 56 % 256]

/-- Group a byte string into consecutive little-endian 32-bit words. -/
def toWordsLE : List Nat → List Nat
  | b0 :: b1 :: b2 :: b3 :: rest =>
      (b0 + b1 * 256 + b2 * 65536 + b3 * 16777216) :: toWordsLE rest
  | _ => []

/-- Split a byte string into `n` consecutive 64-byte blocks. -/
def splitBlocks : Nat → List Nat → List (List Nat)
  | 0, _ => []
  | n + 1, l => l.take 64 :: splitBlocks n (l.drop 64)

/-- The 64 MD5 sine-derived constants `K`. -/
def md5K : List Nat := [
  3614090360, 3905402710, 606105819, 3250441966, 4118548399, 1200080426,
  2821735955, 4249261313, 1770035416, 2336552879, 4294925233, 2304563134,
  1804603682, 4254626195, 2792965006, 1236535329, 4129170786, 3225465664,
  643717713, 3921069994, 3593408605, 38016083, 3634488961, 3889429448,
  568446438, 3275163606, 4107603335, 1163531501, 2850285829, 4243563512,
  1735328473, 2368359562, 4294588738, 2272392833, 1839030562, 4259657740,
  2763975236, 1272893353, 4139469664, 3200236656, 681279174, 3936430074,
  3572445317, 76029189, 3654602809, 3873151461, 530742520, 3299628645,
  4096336452, 1126891415, 2878612391, 4237533241, 1700485571, 2399980690,
  4293915773, 2240044497, 1873313359, 4264355552, 2734768916, 1309151649,
  4149444226, 3174756917, 718787259, 3951481745]

/-- The 64 MD5 per-round left-rotation amounts `s`. -/
def md5S : List Nat := [
  7, 12, 17, 22, 7, 12, 17, 22, 7, 12, 17, 22, 7, 12, 17, 22,
  5, 9, 14, 20, 5, 9, 14, 20, 5, 9, 14, 20, 5, 9, 14, 20,
  4, 11, 16, 23, 4, 11, 16, 23, 4, 11, 16, 23, 4, 11, 16, 23,
  6, 10, 15, 21, 6, 10, 15, 21, 6, 10, 15, 21, 6, 10, 15, 21]

/-- The MD5 round function (F, G, H, I by round quarter). -/
def md5F (i b c d : Nat) : Nat :=
  if i < 16 then (b &&& c) ||| ((b ^^^ 4294967295) &&& d)
  else if i < 32 then (d &&& b) ||| ((d ^^^ 4294967295) &&& c)
  else if i < 48 then b ^^^ c ^^^ d
  else c ^^^ (b ||| (d ^^^ 4294967295))

/-- The MD5 message-word index for step `i`. -/
def md5g (i : Nat) : Nat :=
  if i < 16 then i
  else if i < 32 then (5 * i + 1) % 16
  else if i < 48 then (3 * i + 5) % 16
  else (7 * i) % 16

/-- The 64 MD5 steps over one message block `m` (16 words). -/
def md5Loop (m : List Nat) : Nat → Nat → Nat × Nat × Nat × Nat →
    Nat × Nat × Nat × Nat
  | 0, _, st => st
  | fuel + 1, i, (a, b, c, d) =>
    let f := (md5F i b c d + a + md5K.getD i 0 + m.getD (md5g i) 0) % 4294967296
    md5Loop m fuel (i + 1) (d, (b + rotl32 f (md5S.getD i 0)) % 4294967296, b, c)

/-- One MD5 compression step: run the 64 rounds on a 64-byte block and
add the result into the running state. -/
def md5Chunk (st : Nat × Nat × Nat × Nat) (block : List Nat) :
    Nat × Nat × Nat × Nat :=
  let (a0, b0, c0, d0) := st
  let (a, b, c, d) := md5Loop (toWordsLE block) 64 0 st
  ((a0 + a) % 4294967296, (b0 + b) % 4294967296,
   (c0 + c) % 4294967296, (d0 + d) % 4294967296)

/-- Serialize the final MD5 state little-endian (16 bytes). -/
def md5Out : Nat × Nat × Nat × Nat → List Nat
  | (a, b, c, d) => u32le a ++ u32le b ++ u32le c ++ u32le d

/-- MD5 (RFC 1321): pad with `0x80`, zeros and the 64-bit little-endian
bit length, then compress each 64-byte block. -/
def md5 (msg : List Nat) : List Nat :=
  let z := (120 - (msg.length + 1) % 64) % 64
  let padded := msg ++ 0x80 :: (List.replicate z 0 ++ u64le (msg.length * 8))
  md5Out ((splitBlocks (padded.length / 64) padded).foldl md5Chunk
    (1732584193, 4023233417, 2562383102, 271733878))

/-- The AES S-box. -/
def sbox : List Nat := [
  99, 124, 119, 123, 242, 107, 111, 197, 48, 1, 103, 43,
  254, 215, 171, 118, 202, 130, 201, 125, 250, 89, 71, 240,
  173, 212, 162, 175, 156, 164, 114, 192, 183, 253, 147, 38,
  54, 63, 247, 204, 52, 165, 229, 241, 113, 216, 49, 21,
  4, 199, 35, 195, 24, 150, 5, 154, 7, 18, 128, 226,
  235, 39, 178, 117, 9, 131, 44, 26, 27, 110, 90, 160,
  82, 59, 214, 179, 41, 227, 47, 132, 83, 209, 0, 237,
  32, 252, 177, 91, 106, 203, 190, 57, 74, 76, 88, 207,
  208, 239, 170, 251, 67, 77, 51, 133, 69, 249, 2, 127,
  80, 60, 159, 168, 81, 163, 64, 143, 146, 157, 56, 245,
  188, 182, 218, 33, 16, 255, 243, 210, 205, 12, 19, 236,
  95, 151, 68, 23, 196, 167, 126, 61, 100, 93, 25, 115,
  96, 129, 79, 220, 34, 42, 144, 136, 70, 238, 184, 20,
  222, 94, 11, 219, 224, 50, 58, 10, 73, 6, 36, 92,
  194, 211, 172, 98, 145, 149, 228, 121, 231, 200, 55, 109,
  141, 213, 78, 169, 108, 86, 244, 234, 101, 122, 174, 8,
  186, 120, 37, 46, 28, 166, 180, 198, 232, 221, 116, 31,
  75, 189, 139, 138, 112, 62, 181, 102, 72, 3, 246, 14,
  97, 53, 87, 185, 134, 193, 29, 158, 225, 248, 152, 17,
  105, 217, 142, 148, 155, 30, 135, 233, 206, 85, 40, 223,
  140, 161, 137, 13, 191, 230, 66, 104, 65, 153, 45, 15,
  176, 84, 187, 22]

/-- The inverse AES S-box. -/
def invSbox : List Nat := [
  82, 9, 106, 213, 48, 54, 165, 56, 191, 64, 163, 158,
  129, 243, 215, 251, 124, 227, 57, 130, 155, 47, 255, 135,
  52, 142, 67, 68, 196, 222, 233, 203, 84, 123, 148, 50,
  166, 194, 35, 61, 238, 76, 149, 11, 66, 250, 195, 78,
  8, 46, 161, 102, 40, 217, 36, 178, 118, 91, 162, 73,
  109, 139, 209, 37, 114, 248, 246, 100, 134, 104, 152, 22,
  212, 164, 92, 204, 93, 101, 182, 146, 108, 112, 72, 80,
  253, 237, 185, 218, 94, 21, 70, 87, 167, 141, 157, 132,
  144, 216, 171, 0, 140, 188, 211, 10, 247, 228, 88, 5,
  184, 179, 69, 6, 208, 44, 30, 143, 202, 63, 15, 2,
  193, 175, 189, 3, 1, 19, 138, 107, 58, 145, 17, 65,
  79, 103, 220, 234, 151, 242, 207, 206, 240, 180, 230, 115,
  150, 172, 116, 34, 231, 173, 53, 133, 226, 249, 55, 232,
  28, 117, 223, 110, 71, 241, 26, 113, 29, 41, 197, 137,
  111, 183, 98, 14, 170, 24, 190, 27, 252, 86, 62, 75,
  198, 210, 121, 32, 154, 219, 192, 254, 120, 205, 90, 244,
  31, 221, 168, 51, 136, 7, 199, 49, 177, 18, 16, 89,
  39, 128, 236, 95, 96, 81, 127, 169, 25, 181, 74, 13,
  45, 229, 122, 159, 147, 201, 156, 239, 160, 224, 59, 77,
  174, 42, 245, 176, 200, 235, 187, 60, 131, 83, 153, 97,
  23, 43, 4, 126, 186, 119, 214, 38, 225, 105, 20, 99,
  85, 33, 12, 125]

/-- Byte-wise xor of two byte strings. -/
def xorBytes (a b : List Nat) : List Nat := List.zipWith (· ^^^ ·) a b

/-- Multiplication by `x` in GF(2^8) with the AES polynomial `0x11b`. -/
def xtime (b : Nat) : Nat := if b < 128 then b * 2 else (b * 2) ^^^ 283

/-- Double-and-add GF(2^8) multiplication (8 bit rounds). -/
def gmulAux : Nat → Nat → Nat → Nat → Nat
  | 0, _, _, acc => acc
  | n + 1, a, b, acc =>
      gmulAux n (xtime a) (b / 2) (if b % 2 = 1 then acc ^^^ a else acc)

/-- GF(2^8) multiplication. -/
def gmul (a b : Nat) : Nat := gmulAux 8 a b 0

/-- AES SubBytes on the flat column-major 16-byte state. -/
def subBytes (s : List Nat) : List Nat := s.map (fun b => sbox.getD b 0)

/-- AES InvSubBytes. -/
def invSubBytes (s : List Nat) : List Nat := s.map (fun b => invSbox.getD b 0)

/-- AES ShiftRows: state byte `(r, c)` lives at flat index `r + 4c`; row
`r` is rotated left by `r`. -/
def shiftRows (s : List Nat) : List Nat :=
  (List.range 16).map fun i => s.getD (i % 4 + 4 * ((i / 4 + i % 4) % 4)) 0

/-- AES InvShiftRows. -/
def invShiftRows (s : List Nat) : List Nat :=
  (List.range 16).map fun i => s.getD (i % 4 + 4 * ((i / 4 + 4 - i % 4) % 4)) 0

/-- AES MixColumns. -/
def mixColumns (s : List Nat) : List Nat :=
  (List.range 16).map fun i =>
    let c := i / 4
    let a0 := s.getD (4 * c) 0
    let a1 := s.getD (4 * c + 1) 0
    let a2 := s.getD (4 * c + 2) 0
    let a3 := s.getD (4 * c + 3) 0
    match i % 4 with
    | 0 => gmul 2 a0 ^^^ gmul 3 a1 ^^^ a2 ^^^ a3
    | 1 => a0 ^^^ gmul 2 a1 ^^^ gmul 3 a2 ^^^ a3
    | 2 => a0 ^^^ a1 ^^^ gmul 2 a2 ^^^ gmul 3 a3
    | _ => gmul 3 a0 ^^^ a1 ^^^ a2 ^^^ gmul 2 a3

/-- AES InvMixColumns. -/
def invMixColumns (s : List Nat) : List Nat :=
  (List.range 16).map fun i =>
    let c := i / 4
    let a0 := s.getD (4 * c) 0
    let a1 := s.getD (4 * c + 1) 0
    let a2 := s.getD (4 * c + 2) 0
    let a3 := s.getD (4 * c + 3) 0
    match i % 4 with
    | 0 => gmul 14 a0 ^^^ gmul 11 a1 ^^^ gmul 13 a2 ^^^ gmul 9 a3
    | 1 => gmul 9 a0 ^^^ gmul 14 a1 ^^^ gmul 11 a2 ^^^ gmul 13 a3
    | 2 => gmul 13 a0 ^^^ gmul 9 a1 ^^^ gmul 14 a2 ^^^ gmul 11 a3
    | _ => gmul 11 a0 ^^^ gmul 13 a1 ^^^ gmul 9 a2 ^^^ gmul 14 a3

/-- The AES key-schedule round constants. -/
def rcon : List Nat := [1, 2, 4, 8, 16, 32, 64, 128, 27, 54]

/-- AES-128 key expansion: generate words 4..43 from the first four. -/
def ksAux : Nat → Nat → List (List Nat) → List (List Nat)
  | 0, _, ws => ws
  | n + 1, i, ws =>
    let prev := ws.getD (i - 1) []
    let base := ws.getD (i - 4) []
    let t := if i % 4 = 0 then
        xorBytes (subBytes (prev.drop 1 ++ prev.take 1))
          [rcon.getD (i / 4 - 1) 0, 0, 0, 0]
      else prev
    ksAux n (i + 1) (ws ++ [xorBytes base t])

/-- The eleven 16-byte AES-128 round keys of `key`. -/
def roundKeys (key : List Nat) : List (List Nat) :=
  let ws := ksAux 40 4
    [key.take 4, (key.drop 4).take 4, (key.drop 8).take 4, (key.drop 12).take 4]
  (List.range 11).map fun r =>
    ws.getD (4 * r) [] ++ ws.getD (4 * r + 1) [] ++
    ws.getD (4 * r + 2) [] ++ ws.getD (4 * r + 3) []

/-- AES-128 middle encryption rounds (rounds 1..9). -/
def aesEncRounds : Nat → Nat → List Nat → List (List Nat) → List Nat
  | 0, _, s, _ => s
  | n + 1, r, s, rks =>
      aesEncRounds n (r + 1)
        (xorBytes (mixColumns (shiftRows (subBytes s))) (rks.getD r [])) rks

/-- AES-128 encryption of one 16-byte block. -/
def encryptBlock (rks : List (List Nat)) (block : List Nat) : List Nat :=
  let s := aesEncRounds 9 1 (xorBytes block (rks.getD 0 [])) rks
  xorBytes (shiftRows (subBytes s)) (rks.getD 10 [])

/-- AES-128 middle decryption rounds (rounds 9 down to 1). -/
def aesDecRounds : Nat → Nat → List Nat → List (List Nat) → List Nat
  | 0, _, s, _ => s
  | n + 1, r, s, rks =>
      aesDecRounds n (r - 1)
        (invMixColumns (xorBytes (invSubBytes (invShiftRows s)) (rks.getD r []))) rks

/-- AES-128 decryption of one 16-byte block. -/
def decryptBlock (rks : List (List Nat)) (block : List Nat) : List Nat :=
  let s := aesDecRounds 9 9 (xorBytes block (rks.getD 10 [])) rks
  xorBytes (invSubBytes (invShiftRows s)) (rks.getD 0 [])

/-- CBC-mode chaining for encryption over `n` 16-byte blocks. -/
def cbcEncAux (rks : List (List Nat)) : Nat → List Nat → List Nat → List Nat
  | 0, _, _ => []
  | n + 1, prev, rest =>
      let c := encryptBlock rks (xorBytes (rest.take 16) prev)
      c ++ cbcEncAux rks n c (rest.drop 16)

/-- CBC-mode chaining for decryption over `n` 16-byte blocks. -/
def cbcDecAux (rks : List (List Nat)) : Nat → List Nat → List Nat → List Nat
  | 0, _, _ => []
  | n + 1, prev, rest =>
      xorBytes (decryptBlock rks (rest.take 16)) prev ++
        cbcDecAux rks n (rest.take 16) (rest.drop 16)

/-- PKCS#7 padding to a whole number of 16-byte blocks (what
`cipher.final()` appends). -/
def pkcs7pad (data : List Nat) : List Nat :=
  let p := 16 - data.length % 16
  data ++ List.replicate p p

/-- `encrypt` of `crypto.ts`: AES-128-CBC of the PKCS#7-padded data under
the given key and iv (`createCipheriv("aes-128-cbc", key, iv)`,
`update` + `final`). -/
def encrypt (key iv data : List Nat) : List Nat :=
  let padded := pkcs7pad data
  cbcEncAux (roundKeys key) (padded.length / 16) iv padded

/-- `decrypt` of `crypto.ts`: AES-128-CBC decryption
(`createDecipheriv("aes-128-cbc", key, iv)`, `update` + `final`).  Node's
`final()` throws when the ciphertext is not a positive whole number of
blocks ("wrong final block length") or the recovered PKCS#7 padding is
invalid ("bad decrypt"); both are plain `Error`s. -/
def decrypt (key iv data : List Nat) : Except JsErr (List Nat) :=
  if data.length = 0 ∨ data.length % 16 ≠ 0 then
    .error (.plainError .wrongFinalBlockLength)
  else
    let plain := cbcDecAux (roundKeys key) (data.length / 16) iv data
    let p := plain.getD (plain.length - 1) 0
    if 1 ≤ p ∧ p ≤ 16 ∧ plain.drop (plain.length - p) = List.replicate p p then
      .ok (plain.take (plain.length - p))
    else .error (.plainError .badDecrypt)

/-- `hash` of `crypto.ts`: the md5 digest of the data (16 bytes). -/
def hash (data : List Nat) : List Nat := md5 data

/-- The state of a `Protocol` instance of `protocol.ts`. -/
structure Protocol where
  deviceId : Nat
  token : List Nat
  key : List Nat
  iv : List Nat

namespace Protocol

/-- The `Protocol` constructor: stores `deviceId` and `token`, derives
`key = hash(token)` and `iv = hash(key ++ token)`. -/
def create (deviceId : Nat) (token : List Nat) : Protocol :=
  let key := hash token
  { deviceId, token, key, iv := hash (key ++ token) }

/-- `Protocol.HANDSHAKE_PACKET`: all-ones deviceId, timestamp and flag,
checksum of 16 `0xff` bytes, empty payload. -/
def HANDSHAKE_PACKET : Packet :=
  { unknown := 0xffffffff, deviceId := 0xffffffff, timestamp := 0xffffffff,
    checksum := List.replicate Packet.CHECKSUM_SIZE 0xff, data := [] }

/-- `Protocol.isHandshake`: a packet is a handshake packet iff its total
length equals the header size (empty payload). -/
def isHandshake (p : Packet) : Bool :=
  p.length == Packet.HEADER_SIZE

/-- `Protocol.calcChecksum`: build a dummy packet from the given fields
with the raw token in the checksum slot (the constructor defaults the flag
to 0), serialize it, and hash the bytes. -/
def calcChecksum (proto : Protocol) (deviceId timestamp : Nat)
    (data : List Nat) : Except JsErr (List Nat) :=
  (Packet.toBuffer
    { unknown := 0, deviceId, timestamp, checksum := proto.token, data }).map hash

/-- `Protocol.validateChecksum`: recompute the checksum from the packet's
own fields and compare it byte-for-byte with the packet's checksum. -/
def validateChecksum (proto : Protocol) (p : Packet) :
    Except JsErr Bool :=
  (calcChecksum proto p.deviceId p.timestamp p.data).map
    (fun expected => expected == p.checksum)

/-- `Protocol.unpackResponse`: throw a plain `Error` ("Invalid packet
checksum") when validation fails, otherwise decrypt the payload and parse
it as a `Response`.  `parse` models the `JSON.parse` builtin applied to
the decrypted text. -/
def unpackResponse {R : Type}
    (parse : List Nat → Except JsErr (Response R))
    (proto : Protocol) (p : Packet) : Except JsErr (Response R) := do
  let ok ← validateChecksum proto p
  if !ok then
    throw (.plainError .invalidChecksum)
  let decrypted ← decrypt proto.key proto.iv p.data
  parse decrypted

/-- `Protocol.packRequest`: normalize absent `params` to `[]`, serialize
the payload and append one NUL byte (`stringify` models the
`JSON.stringify` builtin as UTF-8 bytes), encrypt with the session
key/iv, compute the checksum over deviceId, timestamp and ciphertext, and
assemble the packet. -/
def packRequest {P : Type} (stringify : Payload P → List Nat)
    (proto : Protocol) (req : Request P) (timestamp : Nat) :
    Except JsErr Packet :=
  let payload : Payload P := { id := req.id, method := req.method,
                               params := req.params.getD [] }
  let data := stringify payload ++ [0]
  let encryptedData := encrypt proto.key proto.iv data
  (calcChecksum proto proto.deviceId timestamp encryptedData).map
    (fun ck => { unknown := 0, deviceId := proto.deviceId, timestamp,
                 checksum := ck, data := encryptedData })

end Protocol

instance {E T : Type} [DecidableEq E] [DecidableEq T] :
    DecidableEq (Except E T) := fun
  | .ok a, .ok b =>
    if h : a = b then .isTrue (by rw [h])
    else .isFalse (by intro hc; cases hc; exact h rfl)
  | .ok _, .error _ => .isFalse (by intro h; cases h)
  | .error _, .ok _ => .isFalse (by intro h; cases h)
  | .error a, .error b =>
    if h : a = b then .isTrue (by rw [h])
    else .isFalse (by intro hc; cases hc; exact h rfl)

/-- The observable trace of a finished `retry` run: its result, how many
times `attemptFunc` was executed, and the list of `sleep` durations in
order. -/
structure RetryTrace (E T : Type) where
  result : Except E T
  execs : Nat
  sleeps : List Nat
  deriving Repr, DecidableEq

/-- Outcome of running `retry` under a fuel bound: either the run finished
with a trace, or the fuel was exhausted after `execs` executions and the
recorded sleeps (the source recursion itself has no bound and need not
terminate). -/
inductive RetryOutcome (E T : Type) where
  | done (t : RetryTrace E T)
  | outOfFuel (execs : Nat) (sleeps : List Nat)
  deriving Repr, DecidableEq

/-- `makeAttempt` of `utils.ts` `retry`, with the mutable `remaining`
counter passed explicitly (an `Int`: JavaScript numbers may be negative).
Each round decrements `remaining` when it is positive, executes the
`k`-th attempt, and on failure either rethrows (when `remaining` is now
zero) or sleeps (`if (delay)`: only when `delay` is nonzero) and recurses.
`runs k` gives the result of the `k`-th execution of `attemptFunc`. -/
def retryAux {E T : Type} (runs : Nat → Except E T) (delay : Nat) :
    Nat → Int → Nat → Nat → List Nat → RetryOutcome E T
  | 0, _, _, execs, sleeps => .outOfFuel execs sleeps
  | fuel + 1, remaining, k, execs, sleeps =>
    let remaining' := if remaining > 0 then remaining - 1 else remaining
    match runs k with
    | .ok v => .done ⟨.ok v, execs + 1, sleeps⟩
    | .error e =>
      if remaining' = 0 then .done ⟨.error e, execs + 1, sleeps⟩
      else retryAux runs delay fuel remaining' (k + 1) (execs + 1)
             (sleeps ++ if delay ≠ 0 then [delay] else [])

/-- `retry(attemptFunc, attempts, delay)` of `utils.ts`, run under a fuel
bound on the recursion depth. -/
def retry {E T : Type} (fuel : Nat) (runs : Nat → Except E T)
    (attempts : Int) (delay : Nat) : RetryOutcome E T :=
  retryAux runs delay fuel attempts 0 0 []

/-- How many times `attemptFunc` was executed in a `retry` outcome. -/
def RetryOutcome.execs {E T : Type} : RetryOutcome E T → Nat
  | .done t => t.execs
  | .outOfFuel e _ => e


namespace Device

/-- `Device.MAX_CALL_INTERVAL` (seconds). -/
def MAX_CALL_INTERVAL : Int := 60

/-- The session state mutated by `call`: the cached device timestamp and
the wall-clock time of the last successful exchange (milliseconds). -/
structure DeviceState where
  timestamp : Nat
  lastSeenAt : Int
  deriving Repr, DecidableEq

/-- `HandshakeResult` of `device.ts`. -/
structure HandshakeResult where
  deviceId : Nat
  timestamp : Nat
  deriving Repr, DecidableEq

/-- The environment of one `call` invocation: the wall-clock readings and
the outcomes of the awaited sub-operations.  `exchangeOutcome` is the
result of the retry-wrapped send: the matched reply packet together with
the unpacked response (`none` models `undefined`, the handshake-reply
case). -/
structure CallEnv (R : Type) where
  now0 : Int
  handshakeOutcome : Except JsErr HandshakeResult
  nowAfterHandshake : Int
  exchangeOutcome : Except JsErr (Packet × Option (Response R))
  nowAfterExchange : Int

/-- The observable result of one `call` invocation: the final session
state, whether this call awaited a handshake, and its result. -/
structure CallResult (R : Type) where
  state : DeviceState
  didHandshake : Bool
  result : Except JsErr R

/-- The response-inspection tail of `Device.call` (after the session state
updates): an absent response fails with `DeviceError("Empty response")`,
an error response fails with a `DeviceError` carrying the device's code
and message, otherwise the result value is returned. -/
def handleResponse {R : Type} : Option (Response R) → Except JsErr R
  | none => .error (.deviceError .emptyResponse)
  | some (.failure _ code message) =>
      .error (.deviceError (.deviceResponded code message))
  | some (.success _ result) => .ok result

/-- The match predicate of `Device.call` passed to `socket.send`:
`response?.id === id`.  An absent response (handshake reply) never
matches. -/
def matchesId {R : Type} (id : Nat) : Option (Response R) → Bool
  | none => false
  | some r => r.id == id

/-- The part of `Device.call` from the request exchange on: on success the
session state is set from the reply packet's timestamp and the current
wall clock *before* the response content is inspected; on failure the
error propagates with the state unchanged. -/
def callExchange {R : Type} (st : DeviceState) (env : CallEnv R)
    (didHandshake : Bool) : CallResult R :=
  match env.exchangeOutcome with
  | .error e => ⟨st, didHandshake, .error e⟩
  | .ok (pkt, response) =>
      ⟨⟨pkt.timestamp, env.nowAfterExchange⟩, didHandshake,
       handleResponse response⟩

/-- `Device.call` of `device.ts` as a state transformer: compute
`secondsPassed = Math.floor((Date.now() - lastSeenAt) / 1000)`; when it
exceeds `MAX_CALL_INTERVAL`, await a handshake first and update
`timestamp`/`lastSeenAt` from its outcome (propagating its failure);
then run the exchange. -/
def callStep {R : Type} (st : DeviceState) (env : CallEnv R) : CallResult R :=
  let secondsPassed := Int.fdiv (env.now0 - st.lastSeenAt) 1000
  if secondsPassed > MAX_CALL_INTERVAL then
    match env.handshakeOutcome with
    | .error e => ⟨st, true, .error e⟩
    | .ok hs => callExchange ⟨hs.timestamp, env.nowAfterHandshake⟩ env true
  else
    callExchange st env false

/-- Events at the session's private `handshake()` entry point, under the
single-threaded cooperative scheduling of the JavaScript runtime:
`request` is one caller running the body of `handshake()` (the
check-and-set of `handshakePromise` runs without interleaving, as there
is no `await` inside it); `settle` is the `.finally` callback running
when the shared operation completes (fulfilled or rejected). -/
inductive HsEvent where
  | request
  | settle
  deriving Repr, DecidableEq

/-- The handshake coordination state of a session: `pending` is the id of
the in-flight handshake exchange (the `handshakePromise` field, `none`
modelling `null`), `started` counts the exchanges started so far. -/
structure HsState where
  pending : Option Nat
  started : Nat
  deriving Repr, DecidableEq

/-- A fresh session: `handshakePromise = null`, no exchange started. -/
def hsInit : HsState := ⟨none, 0⟩

/-- One event at the handshake entry point.  A `request` either starts a
fresh exchange (when none is pending) or joins the pending one; in both
cases the second component is the id of the exchange whose outcome this
caller will observe.  A `settle` clears the pending marker. -/
def hsStep (s : HsState) : HsEvent → HsState × Option Nat
  | .request =>
    match s.pending with
    | none => (⟨some (s.started + 1), s.started + 1⟩, some (s.started + 1))
    | some i => (s, some i)
  | .settle => (⟨none, s.started⟩, none)

/-- Run a sequence of handshake events, collecting for each `request` the
id of the exchange its caller observes. -/
def hsRun (s : HsState) : List HsEvent → HsState × List Nat
  | [] => (s, [])
  | e :: es =>
    let (s', r) := hsStep s e
    let (s'', rs) := hsRun s' es
    (s'', r.toList ++ rs)

end Device

/-! ## Helper lemmas -/

theorem u16be_length (n : Nat) : (u16be n).length = 2 := rfl

theorem u32be_length (n : Nat) : (u32be n).length = 4 := rfl

theorem writeBytes_at (pre src rest : List Nat) (off : Nat)
    (hoff : off = pre.length) (h : src.length ≤ rest.length) :
    writeBytes (pre ++ rest) off src = pre ++ src ++ rest.drop src.length := by
  subst hoff
  unfold writeBytes
  rw [List.take_left, List.length_append]
  have h1 : pre.length + rest.length - pre.length = rest.length := by omega
  rw [h1, List.take_of_length_le h, List.drop_append, List.append_assoc]

theorem writeBytes_at_replicate (pre src : List Nat) (m off : Nat)
    (hoff : off = pre.length) (h : src.length ≤ m) :
    writeBytes (pre ++ List.replicate m 0) off src =
      pre ++ src ++ List.replicate (m - src.length) 0 := by
  rw [writeBytes_at pre src _ off hoff (by simpa using h), List.drop_replicate]

/-- Closed form of `Packet.toBuffer`: when the numeric fields are in range,
the total length fits the 16-bit size field and the checksum has its wire
size, serialization succeeds and yields the header fields at their offsets
followed by checksum and payload. -/
theorem toBuffer_eq (p : Packet) (hcs : p.checksum.length = 16)
    (hlen : p.length ≤ 0xffff) (hu : p.unknown ≤ 0xffffffff)
    (hd : p.deviceId ≤ 0xffffffff) (ht : p.timestamp ≤ 0xffffffff) :
    p.toBuffer = .ok (u16be Packet.MAGIC ++ (u16be p.length ++ (u32be p.unknown ++
      (u32be p.deviceId ++ (u32be p.timestamp ++ (p.checksum ++ p.data)))))) := by
  have hn : p.length = 32 + p.data.length := rfl
  have e1 : writeUInt16BE (List.replicate p.length 0) Packet.MAGIC 0 =
      .ok (u16be Packet.MAGIC ++ List.replicate (p.length - 2) 0) := by
    rw [writeUInt16BE, if_pos ⟨by norm_num [Packet.MAGIC], by simp; omega⟩]
    rw [show (List.replicate p.length 0) = [] ++ List.replicate p.length 0 from rfl,
        writeBytes_at_replicate [] _ _ 0 rfl (by simp [u16be_length]; omega)]
    simp [u16be_length]
  have e2 : writeUInt16BE (u16be Packet.MAGIC ++ List.replicate (p.length - 2) 0)
      p.length 2 =
      .ok (u16be Packet.MAGIC ++ (u16be p.length ++ List.replicate (p.length - 4) 0)) := by
    rw [writeUInt16BE, if_pos ⟨hlen, by simp [u16be_length]; omega⟩]
    rw [writeBytes_at_replicate _ _ _ 2 (by rfl) (by simp [u16be_length]; omega)]
    have : p.length - 2 - (u16be p.length).length = p.length - 4 := by
      simp [u16be_length]; omega
    rw [this, List.append_assoc]
  have e3 : writeUInt32BE (u16be Packet.MAGIC ++ (u16be p.length ++
      List.replicate (p.length - 4) 0)) p.unknown 4 =
      .ok (u16be Packet.MAGIC ++ (u16be p.length ++ (u32be p.unknown ++
        List.replicate (p.length - 8) 0))) := by
    rw [writeUInt32BE, if_pos ⟨hu, by simp [u16be_length]; omega⟩]
    rw [← List.append_assoc,
        writeBytes_at_replicate _ _ _ 4 (by rfl) (by simp [u32be_length]; omega)]
    have : p.length - 4 - (u32be p.unknown).length = p.length - 8 := by
      simp [u32be_length]; omega
    rw [this, List.append_assoc, List.append_assoc]
  have e4 : writeUInt32BE (u16be Packet.MAGIC ++ (u16be p.length ++ (u32be p.unknown ++
      List.replicate (p.length - 8) 0))) p.deviceId 8 =
      .ok (u16be Packet.MAGIC ++ (u16be p.length ++ (u32be p.unknown ++
        (u32be p.deviceId ++ List.replicate (p.length - 12) 0)))) := by
    rw [writeUInt32BE, if_pos ⟨hd, by simp [u16be_length, u32be_length]; omega⟩]
    rw [← List.append_assoc, ← List.append_assoc,
        writeBytes_at_replicate _ _ _ 8 (by rfl) (by simp [u32be_length]; omega)]
    have : p.length - 8 - (u32be p.deviceId).length = p.length - 12 := by
      simp [u32be_length]; omega
    rw [this]
    simp [List.append_assoc]
  have e5 : writeUInt32BE (u16be Packet.MAGIC ++ (u16be p.length ++ (u32be p.unknown ++
      (u32be p.deviceId ++ List.replicate (p.length - 12) 0)))) p.timestamp 12 =
      .ok (u16be Packet.MAGIC ++ (u16be p.length ++ (u32be p.unknown ++
        (u32be p.deviceId ++ (u32be p.timestamp ++ List.replicate (p.length - 16) 0))))) := by
    rw [writeUInt32BE, if_pos ⟨ht, by simp [u16be_length, u32be_length]; omega⟩]
    rw [← List.append_assoc, ← List.append_assoc, ← List.append_assoc,
        writeBytes_at_replicate _ _ _ 12 (by rfl) (by simp [u32be_length]; omega)]
    have : p.length - 12 - (u32be p.timestamp).length = p.length - 16 := by
      simp [u32be_length]; omega
    rw [this]
    simp [List.append_assoc]
  have e6 : writeBytes (u16be Packet.MAGIC ++ (u16be p.length ++ (u32be p.unknown ++
      (u32be p.deviceId ++ (u32be p.timestamp ++ List.replicate (p.length - 16) 0)))))
      16 p.checksum =
      u16be Packet.MAGIC ++ (u16be p.length ++ (u32be p.unknown ++
        (u32be p.deviceId ++ (u32be p.timestamp ++
          (p.checksum ++ List.replicate (p.length - 32) 0))))) := by
    rw [← List.append_assoc, ← List.append_assoc, ← List.append_assoc,
        ← List.append_assoc,
        writeBytes_at_replicate _ _ _ 16 (by rfl) (by rw [hcs]; omega)]
    have : p.length - 16 - p.checksum.length = p.length - 32 := by
      rw [hcs]; omega
    rw [this]
    simp [List.append_assoc]
  have e7 : writeBytes (u16be Packet.MAGIC ++ (u16be p.length ++ (u32be p.unknown ++
      (u32be p.deviceId ++ (u32be p.timestamp ++
        (p.checksum ++ List.replicate (p.length - 32) 0)))))) 32 p.data =
      u16be Packet.MAGIC ++ (u16be p.length ++ (u32be p.unknown ++
        (u32be p.deviceId ++ (u32be p.timestamp ++ (p.checksum ++ p.data))))) := by
    rw [← List.append_assoc, ← List.append_assoc, ← List.append_assoc,
        ← List.append_assoc, ← List.append_assoc,
        writeBytes_at_replicate _ _ _ 32
          (by simp [u16be_length, u32be_length, hcs]) (by omega)]
    have : p.length - 32 - p.data.length = 0 := by omega
    rw [this]
    simp [List.append_assoc]
  simp only [Packet.toBuffer, e1, e2, e3, e4, e5, e6, e7, bind, Except.bind,
    pure, Except.pure]

theorem except_bind_ok {E A B : Type} (a : A) (f : A → Except E B) :
    ((Except.ok a : Except E A) >>= f) = f a := rfl

theorem except_bind_error {E A B : Type} (e : E) (f : A → Except E B) :
    ((Except.error e : Except E A) >>= f) = .error e := rfl

/-- The five header reads of `fromBuffer` on a frame laid out as
`toBuffer` produces it, together with its length and payload slices. -/
theorem read_parts (m s u d t : Nat) (rest : List Nat)
    (hm : m ≤ 0xffff) (hs : s ≤ 0xffff) (hu : u ≤ 0xffffffff)
    (hd : d ≤ 0xffffffff) (ht : t ≤ 0xffffffff) :
    readUInt16BE (u16be m ++ (u16be s ++ (u32be u ++ (u32be d ++ (u32be t ++ rest))))) 0 = .ok m ∧
    readUInt16BE (u16be m ++ (u16be s ++ (u32be u ++ (u32be d ++ (u32be t ++ rest))))) 2 = .ok s ∧
    readUInt32BE (u16be m ++ (u16be s ++ (u32be u ++ (u32be d ++ (u32be t ++ rest))))) 4 = .ok u ∧
    readUInt32BE (u16be m ++ (u16be s ++ (u32be u ++ (u32be d ++ (u32be t ++ rest))))) 8 = .ok d ∧
    readUInt32BE (u16be m ++ (u16be s ++ (u32be u ++ (u32be d ++ (u32be t ++ rest))))) 12 = .ok t ∧
    (u16be m ++ (u16be s ++ (u32be u ++ (u32be d ++ (u32be t ++ rest))))).length = 16 + rest.length ∧
    (u16be m ++ (u16be s ++ (u32be u ++ (u32be d ++ (u32be t ++ rest))))).drop 16 = rest ∧
    (u16be m ++ (u16be s ++ (u32be u ++ (u32be d ++ (u32be t ++ rest))))).drop 32 = rest.drop 16 := by
  have hlen : (u16be m ++ (u16be s ++ (u32be u ++ (u32be d ++ (u32be t ++ rest))))).length
      = 16 + rest.length := by
    simp [u16be, u32be]
    omega
  refine ⟨?_, ?_, ?_, ?_, ?_, hlen, ?_, ?_⟩
  · rw [readUInt16BE, if_pos (by rw [hlen]; omega)]
    simp [u16be, u32be, List.getD]
    omega
  · rw [readUInt16BE, if_pos (by rw [hlen]; omega)]
    simp [u16be, u32be, List.getD]
    omega
  · rw [readUInt32BE, if_pos (by rw [hlen]; omega)]
    simp [u16be, u32be, List.getD]
    omega
  · rw [readUInt32BE, if_pos (by rw [hlen]; omega)]
    simp [u16be, u32be, List.getD]
    omega
  · rw [readUInt32BE, if_pos (by rw [hlen]; omega)]
    simp [u16be, u32be, List.getD]
    omega
  · simp [u16be, u32be]
  · simp [u16be, u32be]

/-- `Packet.fromBuffer` succeeds on a well-formed frame and yields the
sliced fields — with the flag field replaced by the constructor default
`0`, whatever legal flag the frame carried. -/
theorem fromBuffer_eq (u did ts : Nat) (cs data : List Nat) (hcs : cs.length = 16)
    (hsize : 32 + data.length ≤ 0xffff)
    (hu : u = 0 ∨ u = 0xffffffff) (hd : did ≤ 0xffffffff) (ht : ts ≤ 0xffffffff) :
    Packet.fromBuffer (u16be 0x2131 ++ (u16be (32 + data.length) ++ (u32be u ++
      (u32be did ++ (u32be ts ++ (cs ++ data)))))) = .ok ⟨0, did, ts, cs, data⟩ := by
  have hu' : u ≤ 0xffffffff := by rcases hu with h | h <;> omega
  obtain ⟨r0, r2, r4, r8, r12, hlen, hd16, hd32⟩ :=
    read_parts 0x2131 (32 + data.length) u did ts (cs ++ data)
      (by norm_num) hsize hu' hd ht
  have hlen' : (u16be 0x2131 ++ (u16be (32 + data.length) ++ (u32be u ++
      (u32be did ++ (u32be ts ++ (cs ++ data)))))).length = 32 + data.length := by
    rw [hlen]
    simp [hcs]
    omega
  have hck : ((u16be 0x2131 ++ (u16be (32 + data.length) ++ (u32be u ++
      (u32be did ++ (u32be ts ++ (cs ++ data)))))).drop 16).take 16 = cs := by
    rw [hd16, ← hcs, List.take_left]
  have hda : (u16be 0x2131 ++ (u16be (32 + data.length) ++ (u32be u ++
      (u32be did ++ (u32be ts ++ (cs ++ data)))))).drop 32 = data := by
    rw [hd32, ← hcs, List.drop_left]
  unfold Packet.fromBuffer
  rw [r0, except_bind_ok, if_neg (by norm_num [Packet.MAGIC])]
  rw [r2, except_bind_ok, hlen', if_neg (by omega)]
  rw [r4, except_bind_ok, if_neg (by rcases hu with rfl | rfl <;> simp)]
  rw [r8, except_bind_ok]
  rw [r12, except_bind_ok]
  rw [hck, hda]
  rfl

/-! ## C1 — packet codec round-trip -/

/-- **C1 (amended)**: for every valid field set — 16-byte checksum,
arbitrary payload bytes, 32-bit deviceId and timestamp, flag either
all-zero or all-ones, total frame length representable in 16 bits —
encoding succeeds, decoding the encoding restores deviceId, timestamp,
checksum and payload, and the encoded frame's size field equals 32 plus
the payload length.  The decoded flag field however is always `0`
(`fromBuffer` validates the flag and then builds the packet through the
constructor's default), so the full field set round-trips exactly when
the flag is all-zero. -/
theorem packet_roundtrip (p : Packet) (hcs : p.checksum.length = 16)
    (hu : p.unknown = 0 ∨ p.unknown = 0xffffffff)
    (hd : p.deviceId ≤ 0xffffffff) (ht : p.timestamp ≤ 0xffffffff)
    (hlen : p.length ≤ 0xffff) :
    ∃ buf, p.toBuffer = .ok buf ∧
      Packet.fromBuffer buf = .ok { p with unknown := 0 } ∧
      readUInt16BE buf 2 = .ok (32 + p.data.length) := by
  have hu' : p.unknown ≤ 0xffffffff := by rcases hu with h | h <;> omega
  have hsize : 32 + p.data.length ≤ 0xffff := hlen
  refine ⟨_, toBuffer_eq p hcs hlen hu' hd ht, ?_, ?_⟩
  · exact fromBuffer_eq p.unknown p.deviceId p.timestamp p.checksum p.data
      hcs hsize hu hd ht
  · exact (read_parts 0x2131 (32 + p.data.length) p.unknown p.deviceId
      p.timestamp (p.checksum ++ p.data) (by norm_num) hsize hu' hd ht).2.1

/-- **C1 (counterexample)**: the claim's round-trip fails on a valid field
set whose flag is all-ones: decoding the encoding yields the flag `0`,
not the original `0xffffffff`. -/
theorem packet_roundtrip_cex :
    Except.bind (Packet.toBuffer ⟨0xffffffff, 1, 2, List.replicate 16 3, []⟩)
      Packet.fromBuffer = .ok ⟨0, 1, 2, List.replicate 16 3, []⟩ ∧
    Packet.mk 0 1 2 (List.replicate 16 3) [] ≠
      Packet.mk 0xffffffff 1 2 (List.replicate 16 3) [] := by
  decide

/-- **C1 (witness)**: the amended round-trip evaluated on a concrete
handshake-flagged packet with payload `[8, 9]`. -/
theorem packet_roundtrip_witness :
    ∃ buf, (Packet.mk 0xffffffff 5 6 (List.replicate 16 7) [8, 9]).toBuffer = .ok buf ∧
      Packet.fromBuffer buf = .ok ⟨0, 5, 6, List.replicate 16 7, [8, 9]⟩ ∧
      readUInt16BE buf 2 = .ok 34 :=
  packet_roundtrip ⟨0xffffffff, 5, 6, List.replicate 16 7, [8, 9]⟩ (by decide)
    (Or.inr rfl) (by decide) (by decide) (by decide)

/-! ## C3 — decode failure characterization -/

/-- **C3 (amended)**: `fromBuffer` fails on a magic mismatch with a plain
`Error` (not a `ProtocolError`); it fails with a `ProtocolError` on a
size mismatch and on a flag that is neither all-zero nor all-ones; on any
other input of at least header length it succeeds and returns the sliced
header fields (flag defaulted to `0`) and remaining payload. -/
theorem fromBuffer_spec :
    (∀ buf m, readUInt16BE buf 0 = .ok m → m ≠ 0x2131 →
      Packet.fromBuffer buf = .error (.plainError (.invalidMagic m))) ∧
    (∀ buf s, readUInt16BE buf 0 = .ok 0x2131 → readUInt16BE buf 2 = .ok s →
      s ≠ buf.length →
      Packet.fromBuffer buf = .error (.protocolError (.invalidSize s buf.length))) ∧
    (∀ buf u, readUInt16BE buf 0 = .ok 0x2131 →
      readUInt16BE buf 2 = .ok buf.length → readUInt32BE buf 4 = .ok u →
      u ≠ 0 → u ≠ 0xffffffff →
      Packet.fromBuffer buf = .error (.protocolError (.invalidUnknown u))) ∧
    (∀ buf u, 32 ≤ buf.length → readUInt16BE buf 0 = .ok 0x2131 →
      readUInt16BE buf 2 = .ok buf.length → readUInt32BE buf 4 = .ok u →
      u = 0 ∨ u = 0xffffffff →
      ∃ d t, readUInt32BE buf 8 = .ok d ∧ readUInt32BE buf 12 = .ok t ∧
        Packet.fromBuffer buf = .ok ⟨0, d, t, (buf.drop 16).take 16, buf.drop 32⟩) := by
  refine ⟨?_, ?_, ?_, ?_⟩
  · intro buf m r0 hm
    unfold Packet.fromBuffer
    rw [r0, except_bind_ok, if_pos (by rw [Packet.MAGIC]; exact hm)]
    rfl
  · intro buf s r0 r2 hs
    unfold Packet.fromBuffer
    rw [r0, except_bind_ok, if_neg (by norm_num [Packet.MAGIC])]
    rw [r2, except_bind_ok, if_pos hs]
    rfl
  · intro buf u r0 r2 r4 hu0 huf
    unfold Packet.fromBuffer
    rw [r0, except_bind_ok, if_neg (by norm_num [Packet.MAGIC])]
    rw [r2, except_bind_ok, if_neg (by omega)]
    rw [r4, except_bind_ok, if_pos ⟨hu0, huf⟩]
    rfl
  · intro buf u hb r0 r2 r4 hu
    obtain ⟨d, rd⟩ : ∃ d, readUInt32BE buf 8 = .ok d :=
      ⟨_, by rw [readUInt32BE, if_pos (by omega)]⟩
    obtain ⟨t, rt⟩ : ∃ t, readUInt32BE buf 12 = .ok t :=
      ⟨_, by rw [readUInt32BE, if_pos (by omega)]⟩
    refine ⟨d, t, rd, rt, ?_⟩
    unfold Packet.fromBuffer
    rw [r0, except_bind_ok, if_neg (by norm_num [Packet.MAGIC])]
    rw [r2, except_bind_ok, if_neg (by omega)]
    rw [r4, except_bind_ok, if_neg (by rcases hu with rfl | rfl <;> simp)]
    rw [rd, except_bind_ok, rt, except_bind_ok]
    rfl

/-- **C3 (counterexample)**: a magic mismatch makes `fromBuffer` fail with
a plain `Error`, not a `ProtocolError` as the claim states. -/
theorem fromBuffer_cex :
    Packet.fromBuffer [0, 0] = .error (.plainError (.invalidMagic 0)) ∧
    isProtocolError (Packet.fromBuffer [0, 0]) = false := by
  decide

/-- **C3 (witness)**: the four branches of the amended decode
characterization evaluated on concrete frames. -/
theorem fromBuffer_spec_witness :
    Packet.fromBuffer [0, 0] = .error (.plainError (.invalidMagic 0)) ∧
    Packet.fromBuffer [0x21, 0x31, 0, 5] =
      .error (.protocolError (.invalidSize 5 4)) ∧
    Packet.fromBuffer [0x21, 0x31, 0, 8, 1, 1, 1, 1] =
      .error (.protocolError (.invalidUnknown 16843009)) ∧
    (∃ d t, readUInt32BE ([0x21, 0x31, 0, 0x20] ++ List.replicate 28 0xff) 8 = .ok d ∧
      readUInt32BE ([0x21, 0x31, 0, 0x20] ++ List.replicate 28 0xff) 12 = .ok t ∧
      Packet.fromBuffer ([0x21, 0x31, 0, 0x20] ++ List.replicate 28 0xff) =
        .ok ⟨0, d, t,
          ((([0x21, 0x31, 0, 0x20] ++ List.replicate 28 0xff) : List Nat).drop 16).take 16,
          (([0x21, 0x31, 0, 0x20] ++ List.replicate 28 0xff) : List Nat).drop 32⟩) :=
  ⟨fromBuffer_spec.1 [0, 0] 0 (by decide) (by decide),
   fromBuffer_spec.2.1 [0x21, 0x31, 0, 5] 5 (by decide) (by decide) (by decide),
   fromBuffer_spec.2.2.1 [0x21, 0x31, 0, 8, 1, 1, 1, 1] 16843009 (by decide)
     (by decide) (by decide) (by decide) (by decide),
   fromBuffer_spec.2.2.2 ([0x21, 0x31, 0, 0x20] ++ List.replicate 28 0xff)
     0xffffffff (by decide) (by decide) (by decide) (by decide) (Or.inr rfl)⟩

/-! ## C2 — checksum validation in unpackResponse -/

/-- **C2 (amended)**: `unpackResponse` recomputes the expected checksum —
the md5 digest of the packet's own deviceId, timestamp and ciphertext
serialized with the raw token in the checksum slot — and compares it
byte-for-byte to the packet's checksum; whenever the comparison fails it
fails with a plain `Error` ("Invalid packet checksum") — not a
`ProtocolError` — and never attempts decryption of the payload: the
guard throws before the `decrypt` call, so the outcome is the same
whatever the payload decrypts to and for every parsing function. -/
theorem unpackResponse_bad_checksum {R : Type} (proto : Protocol)
    (p : Packet) (expected : List Nat)
    (hcalc : Protocol.calcChecksum proto p.deviceId p.timestamp p.data = .ok expected)
    (hne : (expected == p.checksum) = false) :
    Protocol.validateChecksum proto p = .ok false ∧
    ∀ (parse : List Nat → Except JsErr (Response R)),
      Protocol.unpackResponse parse proto p =
        .error (.plainError .invalidChecksum) := by
  have hval : Protocol.validateChecksum proto p = .ok false := by
    rw [Protocol.validateChecksum, hcalc]
    simp [Except.map, hne]
  refine ⟨hval, fun parse => ?_⟩
  unfold Protocol.unpackResponse
  rw [hval, except_bind_ok]
  rfl

set_option maxRecDepth 100000 in
/-- **C2 (counterexample)**: on a checksum mismatch (here the stored
checksum is sixteen `2` bytes, which the recomputed md5 digest is not)
`unpackResponse` fails with a plain `Error`, not a
`ProtocolError("bad checksum")` as the claim states. -/
theorem unpackResponse_bad_checksum_cex :
    Protocol.validateChecksum (Protocol.create 3 (List.replicate 16 5))
      ⟨0, 3, 4, List.replicate 16 2, [1]⟩ = .ok false ∧
    Protocol.unpackResponse (fun _ => .ok (Response.success 0 (0 : Nat)))
      (Protocol.create 3 (List.replicate 16 5))
      ⟨0, 3, 4, List.replicate 16 2, [1]⟩ =
      .error (.plainError .invalidChecksum) ∧
    isProtocolError (Protocol.unpackResponse
      (fun _ => .ok (Response.success 0 (0 : Nat)))
      (Protocol.create 3 (List.replicate 16 5))
      ⟨0, 3, 4, List.replicate 16 2, [1]⟩) = false := by
  decide

set_option maxRecDepth 100000 in
/-- **C2 (witness)**: the checksum-guard theorem evaluated on a concrete
session (token of sixteen `5` bytes) and packet: the expected value is
the actual md5 digest of the token-substituted frame, and it differs
from the packet's stored checksum of sixteen `2` bytes. -/
theorem unpackResponse_bad_checksum_witness :
    Protocol.validateChecksum (Protocol.create 3 (List.replicate 16 5))
      ⟨0, 3, 4, List.replicate 16 2, [1]⟩ = .ok false ∧
    ∀ (parse : List Nat → Except JsErr (Response Nat)),
      Protocol.unpackResponse parse (Protocol.create 3 (List.replicate 16 5))
        ⟨0, 3, 4, List.replicate 16 2, [1]⟩ =
          .error (.plainError .invalidChecksum) :=
  unpackResponse_bad_checksum (R := Nat) (Protocol.create 3 (List.replicate 16 5))
    ⟨0, 3, 4, List.replicate 16 2, [1]⟩
    [229, 243, 184, 55, 73, 81, 1, 228, 191, 166, 169, 249, 187, 245, 2, 109]
    (by decide) (by decide)

/-! ## Retry helper lemmas -/

theorem retryAux_all_fail {E T : Type} (runs : Nat → Except E T) (delay : Nat)
    (errs : Nat → E) :
    ∀ (n fuel k execs : Nat) (sleeps : List Nat), 1 ≤ n → n ≤ fuel →
    (∀ j, j < n → runs (k + j) = .error (errs (k + j))) →
    retryAux runs delay fuel (n : Int) k execs sleeps =
      .done ⟨.error (errs (k + (n - 1))), execs + n,
             sleeps ++ if delay = 0 then [] else List.replicate (n - 1) delay⟩ := by
  intro n
  induction n with
  | zero => intro fuel k execs sleeps h1; omega
  | succ m ih =>
    intro fuel k execs sleeps h1 hf hr
    obtain ⟨f, rfl⟩ : ∃ f, fuel = f + 1 := ⟨fuel - 1, by omega⟩
    rw [retryAux]
    have hpos : ((m + 1 : Nat) : Int) > 0 := by positivity
    rw [if_pos hpos]
    have hrk : runs k = .error (errs k) := by
      have := hr 0 (by omega)
      simpa using this
    simp only [hrk]
    have hrem : ((m + 1 : Nat) : Int) - 1 = (m : Int) := by push_cast; ring
    rcases Nat.eq_zero_or_pos m with rfl | hm
    · rw [if_pos (show ((0 + 1 : Nat) : Int) - 1 = 0 by norm_num)]
      simp
    · rw [if_neg (show ¬(((m + 1 : Nat) : Int) - 1 = 0) by push_cast; omega)]
      rw [hrem]
      rw [ih f (k + 1) (execs + 1)
        (sleeps ++ if delay ≠ 0 then [delay] else []) hm (by omega)
        (fun j hj => by
          have := hr (j + 1) (by omega)
          simpa [Nat.add_assoc, Nat.add_comm 1 j] using this)]
      have h1 : k + 1 + (m - 1) = k + (m + 1 - 1) := by omega
      have h2 : execs + 1 + m = execs + (m + 1) := by omega
      rw [h1, h2]
      by_cases hd : delay = 0
      · simp [hd]
      · have hrep : ([delay] ++ List.replicate (m - 1) delay : List Nat) =
            List.replicate m delay := by
          rw [show m = (m - 1) + 1 by omega, List.replicate_succ]
          simp
        rw [if_pos hd, if_neg hd, if_neg hd, List.append_assoc, hrep,
          Nat.add_sub_cancel]

theorem retryAux_first_success {E T : Type} (runs : Nat → Except E T) (delay : Nat)
    (errs : Nat → E) (v : T) :
    ∀ (m n fuel k execs : Nat) (sleeps : List Nat), m < n → n ≤ fuel →
    (∀ j, j < m → runs (k + j) = .error (errs (k + j))) →
    runs (k + m) = .ok v →
    retryAux runs delay fuel (n : Int) k execs sleeps =
      .done ⟨.ok v, execs + m + 1,
             sleeps ++ if delay = 0 then [] else List.replicate m delay⟩ := by
  intro m
  induction m with
  | zero =>
    intro n fuel k execs sleeps hmn hf _ hok
    obtain ⟨f, rfl⟩ : ∃ f, fuel = f + 1 := ⟨fuel - 1, by omega⟩
    obtain ⟨n', rfl⟩ : ∃ n', n = n' + 1 := ⟨n - 1, by omega⟩
    rw [retryAux]
    rw [if_pos (show ((n' + 1 : Nat) : Int) > 0 by positivity)]
    have hk : runs k = .ok v := by simpa using hok
    simp only [hk]
    simp
  | succ m ih =>
    intro n fuel k execs sleeps hmn hf hr hok
    obtain ⟨f, rfl⟩ : ∃ f, fuel = f + 1 := ⟨fuel - 1, by omega⟩
    obtain ⟨n', rfl⟩ : ∃ n', n = n' + 1 := ⟨n - 1, by omega⟩
    rw [retryAux]
    rw [if_pos (show ((n' + 1 : Nat) : Int) > 0 by positivity)]
    have hrk : runs k = .error (errs k) := by simpa using hr 0 (by omega)
    simp only [hrk]
    have hrem : ((n' + 1 : Nat) : Int) - 1 = (n' : Int) := by push_cast; ring
    rw [if_neg (show ¬(((n' + 1 : Nat) : Int) - 1 = 0) by push_cast; omega)]
    rw [hrem]
    rw [ih n' f (k + 1) (execs + 1) (sleeps ++ if delay ≠ 0 then [delay] else [])
      (by omega) (by omega)
      (fun j hj => by
        have := hr (j + 1) (by omega)
        simpa [Nat.add_assoc, Nat.add_comm 1 j] using this)
      (by rw [show k + 1 + m = k + (m + 1) by omega]; exact hok)]
    have h2 : execs + 1 + m + 1 = execs + (m + 1) + 1 := by omega
    rw [h2]
    by_cases hd : delay = 0
    · simp [hd]
    · have hrep : ([delay] ++ List.replicate m delay : List Nat) =
          List.replicate (m + 1) delay := by
        rw [List.replicate_succ]
        simp
      rw [if_pos hd, if_neg hd, if_neg hd, List.append_assoc, hrep]

theorem retryAux_neg {E T : Type} (runs : Nat → Except E T) (delay : Nat)
    (a : Int) (ha : a < 0) (hfail : ∀ k, ∃ e, runs k = .error e) :
    ∀ (fuel k execs : Nat) (sleeps : List Nat),
    retryAux runs delay fuel a k execs sleeps =
      .outOfFuel (execs + fuel)
        (sleeps ++ if delay = 0 then [] else List.replicate fuel delay) := by
  intro fuel
  induction fuel with
  | zero =>
    intro k execs sleeps
    simp [retryAux]
  | succ f ih =>
    intro k execs sleeps
    rw [retryAux]
    rw [if_neg (by omega : ¬(a > 0))]
    obtain ⟨e, he⟩ := hfail k
    simp only [he]
    rw [if_neg (by omega : ¬(a = 0))]
    rw [ih (k + 1) (execs + 1) (sleeps ++ if delay ≠ 0 then [delay] else [])]
    have h2 : execs + 1 + f = execs + (f + 1) := by omega
    rw [h2]
    by_cases hd : delay = 0
    · simp [hd]
    · have hrep : ([delay] ++ List.replicate f delay : List Nat) =
          List.replicate (f + 1) delay := by
        rw [List.replicate_succ]
        simp
      rw [if_pos hd, if_neg hd, if_neg hd, List.append_assoc, hrep]

theorem retryAux_execs_le {E T : Type} (runs : Nat → Except E T) (delay : Nat) :
    ∀ (fuel : Nat) (r : Int) (k execs : Nat) (sleeps : List Nat),
    execs ≤ (retryAux runs delay fuel r k execs sleeps).execs := by
  intro fuel
  induction fuel with
  | zero =>
    intro r k execs sleeps
    simp [retryAux, RetryOutcome.execs]
  | succ f ih =>
    intro r k execs sleeps
    rw [retryAux]
    cases hrk : runs k with
    | ok v =>
      simp only [hrk]
      simp [RetryOutcome.execs]
    | error e =>
      simp only [hrk]
      split
      · split
        · simp [RetryOutcome.execs]
        · calc execs ≤ execs + 1 := by omega
            _ ≤ _ := ih _ _ _ _
      · split
        · simp [RetryOutcome.execs]
        · calc execs ≤ execs + 1 := by omega
            _ ≤ _ := ih _ _ _ _

theorem retry_execs_pos {E T : Type} (runs : Nat → Except E T) (a : Int)
    (delay fuel : Nat) (hf : 1 ≤ fuel) :
    1 ≤ (retry fuel runs a delay).execs := by
  obtain ⟨f, rfl⟩ : ∃ f, fuel = f + 1 := ⟨fuel - 1, by omega⟩
  unfold retry
  rw [retryAux]
  cases hrk : runs 0 with
  | ok v =>
    simp only [hrk]
    simp [RetryOutcome.execs]
  | error e =>
    simp only [hrk]
    split
    · split
      · simp [RetryOutcome.execs]
      · calc (1 : Nat) ≤ 0 + 1 := by omega
          _ ≤ _ := retryAux_execs_le runs delay f _ _ _ _
    · split
      · simp [RetryOutcome.execs]
      · calc (1 : Nat) ≤ 0 + 1 := by omega
          _ ≤ _ := retryAux_execs_le runs delay f _ _ _ _

/-! ## C4 — retry executes `attempts` times -/

/-- **C4**: for attempts `n ≥ 1` (and enough fuel to cover the source's
unbounded recursion), `retry` executes `attemptFunc` exactly `n` times
when every execution fails, sleeps the delay exactly once between
consecutive executions (no sleep when `delay` is `0`, since the source
guards `if (delay)`), and finishes with the error of the last execution
unchanged; and if the `m`-th execution succeeds first (`m < n`), its
result is returned after exactly `m + 1` executions. -/
theorem retry_spec {E T : Type} (runs : Nat → Except E T) (errs : Nat → E)
    (n delay fuel : Nat) (hn : 1 ≤ n) (hfuel : n ≤ fuel) :
    ((∀ k, k < n → runs k = .error (errs k)) →
      retry fuel runs (n : Int) delay =
        .done ⟨.error (errs (n - 1)), n,
               if delay = 0 then [] else List.replicate (n - 1) delay⟩) ∧
    (∀ m v, m < n → (∀ k, k < m → runs k = .error (errs k)) → runs m = .ok v →
      retry fuel runs (n : Int) delay =
        .done ⟨.ok v, m + 1, if delay = 0 then [] else List.replicate m delay⟩) := by
  constructor
  · intro hfail
    unfold retry
    rw [retryAux_all_fail runs delay errs n fuel 0 0 [] hn hfuel
      (fun j hj => by simpa using hfail j hj)]
    simp
  · intro m v hm hfail hok
    unfold retry
    rw [retryAux_first_success runs delay errs v m n fuel 0 0 [] hm hfuel
      (fun j hj => by simpa using hfail j hj) (by simpa using hok)]
    simp

/-- **C4 (witness)**: `retry` with 3 attempts and delay 7 on an
always-failing function runs it 3 times, sleeps twice and re-raises the
last error; on a function succeeding at the second execution it stops
after 2 executions with one sleep. -/
theorem retry_spec_witness :
    retry 10 (fun k => (Except.error k : Except Nat Nat)) 3 7 =
      .done ⟨.error 2, 3, [7, 7]⟩ ∧
    retry 10 (fun k => if k = 1 then .ok 99 else (Except.error k : Except Nat Nat)) 3 7 =
      .done ⟨.ok 99, 2, [7]⟩ :=
  ⟨(retry_spec (fun k => (Except.error k : Except Nat Nat)) (fun k => k)
      3 7 10 (by omega) (by omega)).1 (fun k _ => rfl),
   (retry_spec (fun k => if k = 1 then .ok 99 else (Except.error k : Except Nat Nat))
      (fun k => k) 3 7 10 (by omega) (by omega)).2 1 99
      (by omega)
      (fun k hk => by
        have : k = 0 := by omega
        subst this
        rfl)
      rfl⟩

/-! ## C9 — retry with non-positive attempts -/

/-- **C9 (amended)**: with `attempts = 0` the wrapper executes
`attemptFunc` exactly once and, if that execution fails, re-raises its
error immediately with no delay; with `attempts < 0` and every execution
failing, the recursion never finishes — it exhausts any fuel bound,
executing once per round and sleeping after each failing execution; in
every case with positive fuel at least one execution occurs, so the
wrapper never executes the attempt function zero times. -/
theorem retry_nonpositive {E T : Type} (runs : Nat → Except E T)
    (delay fuel : Nat) :
    (∀ e, runs 0 = .error e → 1 ≤ fuel →
      retry fuel runs 0 delay = .done ⟨.error e, 1, []⟩) ∧
    (∀ a : Int, a < 0 → (∀ k, ∃ e, runs k = .error e) →
      retry fuel runs a delay =
        .outOfFuel fuel (if delay = 0 then [] else List.replicate fuel delay)) ∧
    (∀ a : Int, 1 ≤ fuel → 1 ≤ (retry fuel runs a delay).execs) := by
  refine ⟨?_, ?_, ?_⟩
  · intro e he hf
    obtain ⟨f, rfl⟩ : ∃ f, fuel = f + 1 := ⟨fuel - 1, by omega⟩
    unfold retry
    rw [retryAux]
    rw [if_neg (by omega : ¬((0 : Int) > 0))]
    simp only [he]
    simp
  · intro a ha hfail
    unfold retry
    rw [retryAux_neg runs delay a ha hfail fuel 0 0 []]
    simp
  · intro a hf
    exact retry_execs_pos runs a delay fuel hf

/-- **C9 (counterexample)**: with `attempts = -1` and a failing attempt
function, `retry` does not execute the function exactly once and
re-raise: after 4 rounds of fuel it is still running, has already
executed the attempt 4 times and slept 4 times. -/
theorem retry_nonpositive_cex :
    retry 4 (fun k => (Except.error k : Except Nat Nat)) (-1) 7 =
      .outOfFuel 4 [7, 7, 7, 7] ∧
    (retry 4 (fun k => (Except.error k : Except Nat Nat)) (-1) 7).execs ≠ 1 := by
  decide

/-- **C9 (witness)**: the amended behavior evaluated concretely: attempts
`0` gives one execution and an immediate re-raise; attempts `-1` with a
failing function exhausts fuel 5 with 5 executions and 5 sleeps; at least
one execution happens. -/
theorem retry_nonpositive_witness :
    retry 5 (fun k => (Except.error k : Except Nat Nat)) 0 7 =
      .done ⟨.error 0, 1, []⟩ ∧
    retry 5 (fun k => (Except.error k : Except Nat Nat)) (-1) 7 =
      .outOfFuel 5 [7, 7, 7, 7, 7] ∧
    1 ≤ (retry 5 (fun k => (Except.error k : Except Nat Nat)) 0 7).execs :=
  ⟨(retry_nonpositive (fun k => (Except.error k : Except Nat Nat)) 7 5).1 0 rfl
      (by omega),
   (retry_nonpositive (fun k => (Except.error k : Except Nat Nat)) 7 5).2.1 (-1)
      (by omega) (fun k => ⟨k, rfl⟩),
   (retry_nonpositive (fun k => (Except.error k : Except Nat Nat)) 7 5).2.2 0
      (by omega)⟩

/-! ## C5 — response inspection in call -/

/-- **C5**: for every matched exchange in `call`, the call's result is the
response inspection of the matched response: an absent response fails
with `DeviceError("Empty response")`; an error response `\x7bcode,
message\x7d` fails with a `DeviceError` carrying that code and message;
otherwise the response's `result` value is returned. -/
theorem call_response_spec {R : Type} (st : Device.DeviceState)
    (env : Device.CallEnv R) (didHs : Bool) (pkt : Packet)
    (resp : Option (Response R))
    (hex : env.exchangeOutcome = .ok (pkt, resp)) :
    (Device.callExchange st env didHs).result = Device.handleResponse resp ∧
    (resp = none →
      Device.handleResponse resp = .error (.deviceError .emptyResponse)) ∧
    (∀ i code msg, resp = some (.failure i code msg) →
      Device.handleResponse resp =
        .error (.deviceError (.deviceResponded code msg))) ∧
    (∀ i r, resp = some (.success i r) → Device.handleResponse resp = .ok r) := by
  refine ⟨?_, ?_, ?_, ?_⟩
  · simp [Device.callExchange, hex]
  · rintro rfl
    rfl
  · rintro i code msg rfl
    rfl
  · rintro i r rfl
    rfl

/-- **C5 (witness)**: the response inspection evaluated on a concrete
exchange whose device reports the example error `code = -1`,
`message = "bad method"`, and on the success and absent cases. -/
theorem call_response_spec_witness :
    (Device.callExchange (R := Nat) ⟨5, 0⟩
      ⟨100, .ok ⟨1, 777⟩, 101,
       .ok (⟨0, 1, 888, [], []⟩, some (.failure 4 (-1) "bad method")), 200⟩
      false).result =
      Device.handleResponse (R := Nat) (some (.failure 4 (-1) "bad method")) ∧
    ((some (.failure 4 (-1) "bad method") : Option (Response Nat)) = none →
      Device.handleResponse (R := Nat) (some (.failure 4 (-1) "bad method")) =
        .error (.deviceError .emptyResponse)) ∧
    (∀ i code msg,
      (some (.failure 4 (-1) "bad method") : Option (Response Nat)) =
        some (.failure i code msg) →
      Device.handleResponse (R := Nat) (some (.failure 4 (-1) "bad method")) =
        .error (.deviceError (.deviceResponded code msg))) ∧
    (∀ i r,
      (some (.failure 4 (-1) "bad method") : Option (Response Nat)) =
        some (.success i r) →
      Device.handleResponse (R := Nat) (some (.failure 4 (-1) "bad method")) = .ok r) :=
  call_response_spec (R := Nat) ⟨5, 0⟩
    ⟨100, .ok ⟨1, 777⟩, 101,
     .ok (⟨0, 1, 888, [], []⟩, some (.failure 4 (-1) "bad method")), 200⟩
    false ⟨0, 1, 888, [], []⟩ (some (.failure 4 (-1) "bad method")) rfl

/-! ## C6 — liveness window -/

theorem callExchange_didHandshake {R : Type} (st : Device.DeviceState)
    (env : Device.CallEnv R) (b : Bool) :
    (Device.callExchange st env b).didHandshake = b := by
  rcases hex : env.exchangeOutcome with e | ⟨pkt, resp⟩ <;>
    simp [Device.callExchange, hex]

theorem callStep_didHandshake {R : Type} (st : Device.DeviceState)
    (env : Device.CallEnv R) :
    (Device.callStep st env).didHandshake =
      decide (Int.fdiv (env.now0 - st.lastSeenAt) 1000 > Device.MAX_CALL_INTERVAL) := by
  unfold Device.callStep
  by_cases hc : Int.fdiv (env.now0 - st.lastSeenAt) 1000 > Device.MAX_CALL_INTERVAL
  · rw [if_pos hc]
    rcases hh : env.handshakeOutcome with e | hs
    · simp [hc]
    · simp [callExchange_didHandshake, hc]
  · rw [if_neg hc]
    simp [callExchange_didHandshake, hc]

/-- **C6 (amended)**: `call` re-handshakes exactly when
`Math.floor((now - lastSeenAt) / 1000)` exceeds the 60-second window,
i.e. when at least 61000 ms have elapsed; in particular an elapsed time
below 60 seconds never re-handshakes, but an elapsed time that exceeds
60 seconds by less than a full second does not re-handshake either.
When a handshake is performed and succeeds, the session continues with
`timestamp`/`lastSeenAt` updated from its outcome before the exchange. -/
theorem call_liveness {R : Type} (st : Device.DeviceState)
    (env : Device.CallEnv R) :
    (env.now0 - st.lastSeenAt < 60000 →
      (Device.callStep st env).didHandshake = false) ∧
    ((Device.callStep st env).didHandshake = true ↔
      env.now0 - st.lastSeenAt ≥ 61000) ∧
    (∀ hs, Int.fdiv (env.now0 - st.lastSeenAt) 1000 > Device.MAX_CALL_INTERVAL →
      env.handshakeOutcome = .ok hs →
      Device.callStep st env =
        Device.callExchange ⟨hs.timestamp, env.nowAfterHandshake⟩ env true) := by
  have harith : Int.fdiv (env.now0 - st.lastSeenAt) 1000 > Device.MAX_CALL_INTERVAL ↔
      env.now0 - st.lastSeenAt ≥ 61000 := by
    rw [Device.MAX_CALL_INTERVAL,
      Int.fdiv_eq_ediv (env.now0 - st.lastSeenAt) (by norm_num)]
    omega
  refine ⟨?_, ?_, ?_⟩
  · intro hlt
    rw [callStep_didHandshake]
    simp only [decide_eq_false_iff_not]
    rw [harith]
    omega
  · rw [callStep_didHandshake]
    simp only [decide_eq_true_eq]
    exact harith
  · intro hs hc hh
    unfold Device.callStep
    rw [if_pos hc, hh]

/-- **C6 (counterexample)**: with 60001 ms elapsed since `lastSeenAt` —
wall-clock time exceeding the 60-second window — `call` does *not*
perform a handshake, because `Math.floor(60001 / 1000) = 60` is not
strictly greater than 60. -/
theorem call_liveness_cex :
    (Device.callStep (R := Nat) ⟨5, 0⟩
      ⟨60001, .ok ⟨1, 777⟩, 60002,
       .ok (⟨0, 1, 888, [], []⟩, some (.success 4 2)), 60500⟩).didHandshake = false ∧
    ((60001 : Int) - 0 > 60000) := by
  decide

/-- **C6 (witness)**: at 61000 ms elapsed the call does handshake and
proceeds from the handshake's timestamp; below the window it does not. -/
theorem call_liveness_witness :
    (Device.callStep (R := Nat) ⟨5, 0⟩
      ⟨61000, .ok ⟨1, 777⟩, 61002,
       .ok (⟨0, 1, 888, [], []⟩, some (.success 4 2)), 61500⟩).didHandshake = true ∧
    Device.callStep (R := Nat) ⟨5, 0⟩
      ⟨61000, .ok ⟨1, 777⟩, 61002,
       .ok (⟨0, 1, 888, [], []⟩, some (.success 4 2)), 61500⟩ =
      Device.callExchange ⟨777, 61002⟩
        ⟨61000, .ok ⟨1, 777⟩, 61002,
         .ok (⟨0, 1, 888, [], []⟩, some (.success 4 2)), 61500⟩ true ∧
    (Device.callStep (R := Nat) ⟨5, 59999⟩
      ⟨60000, .ok ⟨1, 777⟩, 60002,
       .ok (⟨0, 1, 888, [], []⟩, some (.success 4 2)), 60500⟩).didHandshake = false :=
  ⟨((call_liveness (R := Nat) ⟨5, 0⟩ _).2.1).mpr (by decide),
   (call_liveness (R := Nat) ⟨5, 0⟩ _).2.2 ⟨1, 777⟩ (by decide) rfl,
   (call_liveness (R := Nat) ⟨5, 59999⟩ _).1 (by decide)⟩

/-! ## C10 — session state update precedes response inspection -/

/-- **C10**: whenever `call` fails with a `DeviceError` (empty response or
device-reported error), the matched exchange had succeeded, and the
session state was nevertheless updated from that reply packet's timestamp
and the current wall clock — the update happens before the response
content is inspected, and is not rolled back on this error path.
(`Device.handshake` never produces a `DeviceError`, reflected by the
hypothesis on `handshakeOutcome`.) -/
theorem call_state_on_device_error {R : Type} (st : Device.DeviceState)
    (env : Device.CallEnv R) (pkt : Packet) (resp : Option (Response R))
    (hex : env.exchangeOutcome = .ok (pkt, resp))
    (hhs : isDeviceError env.handshakeOutcome = false)
    (herr : isDeviceError (Device.callStep st env).result = true) :
    (Device.callStep st env).state = ⟨pkt.timestamp, env.nowAfterExchange⟩ ∧
    (Device.callStep st env).result = Device.handleResponse resp := by
  unfold Device.callStep at herr ⊢
  by_cases hc : Int.fdiv (env.now0 - st.lastSeenAt) 1000 > Device.MAX_CALL_INTERVAL
  · rw [if_pos hc] at herr ⊢
    rcases hh : env.handshakeOutcome with e | hs
    · exfalso
      simp only [hh] at herr
      cases e <;> simp [isDeviceError, hh] at herr hhs
    · simp only [hh]
      constructor
      · simp [Device.callExchange, hex]
      · simp [Device.callExchange, hex]
  · rw [if_neg hc] at herr ⊢
    constructor
    · simp [Device.callExchange, hex]
    · simp [Device.callExchange, hex]

/-- **C10 (witness)**: a concrete call whose device reports an error:
the result is a `DeviceError` and the session state nevertheless holds
the reply packet's timestamp `888` and the post-exchange clock `200`. -/
theorem call_state_on_device_error_witness :
    (Device.callStep (R := Nat) ⟨5, 0⟩
      ⟨100, .ok ⟨1, 777⟩, 101,
       .ok (⟨0, 1, 888, [], []⟩, some (.failure 4 (-1) "bad method")), 200⟩).state =
      ⟨888, 200⟩ ∧
    (Device.callStep (R := Nat) ⟨5, 0⟩
      ⟨100, .ok ⟨1, 777⟩, 101,
       .ok (⟨0, 1, 888, [], []⟩, some (.failure 4 (-1) "bad method")), 200⟩).result =
      Device.handleResponse (some (.failure 4 (-1) "bad method")) :=
  call_state_on_device_error ⟨5, 0⟩ _ ⟨0, 1, 888, [], []⟩
    (some (.failure 4 (-1) "bad method")) rfl (by decide) (by decide)

/-! ## C7 — packRequest assembly -/

theorem create_deviceId (did : Nat) (token : List Nat) :
    (Protocol.create did token).deviceId = did := rfl

theorem create_token (did : Nat) (token : List Nat) :
    (Protocol.create did token).token = token := rfl

theorem create_key (did : Nat) (token : List Nat) :
    (Protocol.create did token).key = hash token := rfl

theorem create_iv (did : Nat) (token : List Nat) :
    (Protocol.create did token).iv = hash (hash token ++ token) := rfl

theorem md5Out_length (st : Nat × Nat × Nat × Nat) : (md5Out st).length = 16 := by
  rcases st with ⟨a, b, c, d⟩
  rfl

/-- The md5 digest — `hash` of crypto.ts — is always 16 bytes. -/
theorem hash_length (data : List Nat) : (hash data).length = 16 := by
  unfold hash md5
  exact md5Out_length _

/-- **C7**: for every request and timestamp, `packRequest` on a session
constructed from `(deviceId, token)` normalizes absent `params` to `[]`,
appends exactly one NUL byte to the serialized JSON text, encrypts that
byte string with AES-128-CBC under `key = hash(token)` and
`iv = hash(key ++ token)` (md5-derived), computes the 16-byte checksum as
the md5 digest of the dummy packet carrying `deviceId`, the given
timestamp, the ciphertext, and the raw token in the checksum slot, and
assembles the packet from those fields (flag 0). -/
theorem packRequest_spec {P : Type} (stringify : Payload P → List Nat)
    (did : Nat) (token : List Nat) (req : Request P) (ts : Nat) (p : Packet)
    (hpack : Protocol.packRequest stringify (Protocol.create did token) req ts
      = .ok p) :
    p.unknown = 0 ∧ p.deviceId = did ∧ p.timestamp = ts ∧
    p.data = encrypt (hash token) (hash (hash token ++ token))
      (stringify ⟨req.id, req.method, req.params.getD []⟩ ++ [0]) ∧
    p.checksum.length = 16 ∧
    (Packet.toBuffer ⟨0, did, ts, token, p.data⟩).map hash = .ok p.checksum := by
  simp only [Protocol.packRequest, create_deviceId, create_key, create_iv] at hpack
  rcases hcalc : Protocol.calcChecksum (Protocol.create did token) did ts
      (encrypt (hash token) (hash (hash token ++ token))
        (stringify ⟨req.id, req.method, req.params.getD []⟩ ++ [0])) with e | ck
  · rw [hcalc] at hpack
    simp [Except.map] at hpack
  · rw [hcalc] at hpack
    simp only [Except.map] at hpack
    injection hpack with hp
    subst hp
    refine ⟨rfl, rfl, rfl, rfl, ?_, ?_⟩
    · have hc := hcalc
      unfold Protocol.calcChecksum at hc
      rcases htb : Packet.toBuffer ⟨0, did, ts,
          (Protocol.create did token).token,
          encrypt (hash token) (hash (hash token ++ token))
            (stringify ⟨req.id, req.method, req.params.getD []⟩ ++ [0])⟩
          with e | buf
      · rw [htb] at hc
        simp [Except.map] at hc
      · rw [htb] at hc
        simp only [Except.map] at hc
        injection hc with hck
        subst hck
        exact hash_length buf
    · exact hcalc

set_option maxRecDepth 100000 in
/-- **C7 (witness)**: `packRequest` evaluated with the real md5/AES end
to end: deviceId 7, token of sixteen `5` bytes, serialized request bytes
`"abc"`, timestamp 2.  The ciphertext and checksum literals are the
actual AES-128-CBC and md5 outputs (cross-checked against reference
implementations of both primitives). -/
theorem packRequest_spec_witness :
    (Packet.mk 0 7 2
        [146, 145, 35, 98, 247, 174, 217, 218, 70, 123, 74, 190, 93, 143, 102, 167]
        [214, 63, 21, 189, 92, 30, 174, 188, 251, 26, 241, 101, 113, 95, 227, 101]
      ).unknown = 0 ∧
    (Packet.mk 0 7 2
        [146, 145, 35, 98, 247, 174, 217, 218, 70, 123, 74, 190, 93, 143, 102, 167]
        [214, 63, 21, 189, 92, 30, 174, 188, 251, 26, 241, 101, 113, 95, 227, 101]
      ).deviceId = 7 ∧
    (Packet.mk 0 7 2
        [146, 145, 35, 98, 247, 174, 217, 218, 70, 123, 74, 190, 93, 143, 102, 167]
        [214, 63, 21, 189, 92, 30, 174, 188, 251, 26, 241, 101, 113, 95, 227, 101]
      ).timestamp = 2 ∧
    (Packet.mk 0 7 2
        [146, 145, 35, 98, 247, 174, 217, 218, 70, 123, 74, 190, 93, 143, 102, 167]
        [214, 63, 21, 189, 92, 30, 174, 188, 251, 26, 241, 101, 113, 95, 227, 101]
      ).data = encrypt (hash (List.replicate 16 5))
        (hash (hash (List.replicate 16 5) ++ List.replicate 16 5))
        ([97, 98, 99] ++ [0]) ∧
    (Packet.mk 0 7 2
        [146, 145, 35, 98, 247, 174, 217, 218, 70, 123, 74, 190, 93, 143, 102, 167]
        [214, 63, 21, 189, 92, 30, 174, 188, 251, 26, 241, 101, 113, 95, 227, 101]
      ).checksum.length = 16 ∧
    (Packet.toBuffer ⟨0, 7, 2, List.replicate 16 5,
        [214, 63, 21, 189, 92, 30, 174, 188, 251, 26, 241, 101, 113, 95, 227, 101]⟩).map
      hash = .ok (Packet.mk 0 7 2
        [146, 145, 35, 98, 247, 174, 217, 218, 70, 123, 74, 190, 93, 143, 102, 167]
        [214, 63, 21, 189, 92, 30, 174, 188, 251, 26, 241, 101, 113, 95, 227, 101]
      ).checksum :=
  packRequest_spec (P := Nat) (fun _ => [97, 98, 99]) 7 (List.replicate 16 5)
    ⟨1, "get_prop", none⟩ 2
    ⟨0, 7, 2,
     [146, 145, 35, 98, 247, 174, 217, 218, 70, 123, 74, 190, 93, 143, 102, 167],
     [214, 63, 21, 189, 92, 30, 174, 188, 251, 26, 241, 101, 113, 95, 227, 101]⟩
    (by decide)

/-! ## C8 — single-flight handshake -/

theorem hsRun_requests_pending (s : Device.HsState) (i : Nat)
    (h : s.pending = some i) :
    ∀ k, Device.hsRun s (List.replicate k .request) = (s, List.replicate k i) := by
  intro k
  induction k with
  | zero => simp [Device.hsRun]
  | succ m ih =>
    rw [List.replicate_succ]
    have hstep : Device.hsStep s .request = (s, some i) := by
      simp [Device.hsStep, h]
    simp [Device.hsRun, hstep, ih, List.replicate_succ]

theorem hsRun_append (s : Device.HsState) (l₁ l₂ : List Device.HsEvent) :
    Device.hsRun s (l₁ ++ l₂) =
      ((Device.hsRun (Device.hsRun s l₁).1 l₂).1,
       (Device.hsRun s l₁).2 ++ (Device.hsRun (Device.hsRun s l₁).1 l₂).2) := by
  induction l₁ generalizing s with
  | nil => simp [Device.hsRun]
  | cons e es ih =>
    simp [Device.hsRun, ih, List.append_assoc]

/-- **C8**: under the cooperative scheduling of the runtime (the
check-and-set in `handshake()` runs without interleaving), when one or
more callers request a handshake while none is pending, exactly one new
exchange is started and every one of those callers observes that same
exchange; the `.finally` of the shared operation clears the pending
marker when it settles, so a subsequent request starts a fresh
exchange. -/
theorem handshake_single_flight (s : Device.HsState) (hp : s.pending = none)
    (k : Nat) :
    (Device.hsRun s (List.replicate (k + 1) .request)).1 =
      ⟨some (s.started + 1), s.started + 1⟩ ∧
    (Device.hsRun s (List.replicate (k + 1) .request)).2 =
      List.replicate (k + 1) (s.started + 1) ∧
    (Device.hsStep ⟨some (s.started + 1), s.started + 1⟩ .settle).1.pending =
      none ∧
    (Device.hsRun s (List.replicate (k + 1) .request ++
        [.settle, .request])).2 =
      List.replicate (k + 1) (s.started + 1) ++ [s.started + 2] := by
  have hstep1 : Device.hsStep s .request =
      (⟨some (s.started + 1), s.started + 1⟩, some (s.started + 1)) := by
    simp [Device.hsStep, hp]
  have hrep : Device.hsRun s (List.replicate (k + 1) .request) =
      (⟨some (s.started + 1), s.started + 1⟩,
       List.replicate (k + 1) (s.started + 1)) := by
    rw [List.replicate_succ]
    simp [Device.hsRun, hstep1,
      hsRun_requests_pending ⟨some (s.started + 1), s.started + 1⟩
        (s.started + 1) rfl k, List.replicate_succ]
  refine ⟨by rw [hrep], by rw [hrep], rfl, ?_⟩
  rw [hsRun_append, hrep]
  simp [Device.hsRun, Device.hsStep]

/-- **C8 (witness)**: two concurrent requests on a fresh session start
exactly one exchange (id 1) that both observe; after it settles, a later
request starts exchange 2. -/
theorem handshake_single_flight_witness :
    (Device.hsRun Device.hsInit (List.replicate 2 .request)).1 = ⟨some 1, 1⟩ ∧
    (Device.hsRun Device.hsInit (List.replicate 2 .request)).2 =
      List.replicate 2 1 ∧
    (Device.hsStep ⟨some 1, 1⟩ .settle).1.pending = none ∧
    (Device.hsRun Device.hsInit
        (List.replicate 2 .request ++ [.settle, .request])).2 =
      List.replicate 2 1 ++ [2] :=
  handshake_single_flight Device.hsInit rfl 1

end Miio
